import Mathlib

set_option maxRecDepth 8000
set_option maxHeartbeats 1600000

/- Shallow embedding of the LangGraph chat agent in
   src/backend/src/core/chat_agent.py, together with the connection-pool
   discipline of src/backend/src/services/database.py.

   Modelling decisions:
   * The external collaborators (the hosted language model, the two embedding
     models, the PostgreSQL store and the thumbnail resolver) are modelled as
     per-run oracles (structure Oracles).  A language-model call that produced
     unparseable output (no brace-delimited JSON, or a JSON decode error) is
     modelled as the oracle returning none; a parsed JSON object is modelled as
     a record of optional fields, matching the .get(key, default) accesses of
     the Python code.  An embedding call that raised is modelled as none.
   * Embedding vectors are opaque to all control flow; they are modelled as
     List Int (the agent only formats them into the SQL text).
   * Python truthiness tests on optional strings and lists
     (if state.get(...):) are modelled by truthyS / truthyList.
   * The LangGraph workflow of create_chat_agent is encoded directly:
     query_router_node, then either END (conditional edge on a truthy
     final_answer) or embedding_determination -> sql_generation ->
     result_evaluation with the should_retry_sql conditional edge looping back
     to sql_generation.  The loop takes explicit fuel (LangGraph enforces a
     recursion limit); a run that hits the limit is none.
   * Calls with external side effects are logged in an event trace: the
     router invocation, each embedding-model invocation, each
     sql_generation invocation, and the database get_connection /
     cursor.execute / release_connection calls of result_evaluation_node. -/

/-- A database row: an ordered column-to-value mapping; none models SQL NULL
(a Python None value in the RealDictCursor row). -/
abbrev Row := List (String × Option String)

/-- One record of state.sql_query_history, as appended by sql_generation_node
and backfilled by result_evaluation_node. -/
structure SqlAttempt where
  sql : String
  attempt : Nat
  results : Option (List Row) := none
  result_count : Option Nat := none
  feedback : Option String := none
  satisfactory : Option Bool := none
deriving Repr, DecidableEq

/-- The parsed intent record produced by the router; optional fields model
dictionary keys that may be absent. -/
structure Intent where
  search_type : Option String := none
  file_types : List String := []
  needs_text_embedding : Option Bool := none
  needs_visual_embedding : Option Bool := none
  key_criteria : List String := []
deriving Repr, DecidableEq

/-- A successfully extracted JSON object from the router model response
(fields absent from the JSON are none, matching parsed.get defaults). -/
structure RouterParsed where
  is_database_query : Option Bool := none
  enhanced_query : Option String := none
  intent : Option Intent := none
  direct_answer : Option String := none
deriving Repr, DecidableEq

/-- A successfully extracted JSON object from the evaluation model response. -/
structure JudgeParsed where
  satisfactory : Option Bool := none
  feedback : Option String := none
  summary : Option String := none
deriving Repr, DecidableEq

/-- Behaviour of cursor.execute on a given SQL text: a raised database error
(message of the exception) or a fetched row set. -/
inductive ExecOutcome where
  | err (msg : String)
  | ok (rows : List Row)
deriving Repr, DecidableEq

/-- Externally visible calls performed during a run. -/
inductive Event where
  | routerCall
  | textEmbedCall
  | visualEmbedImageCall
  | visualEmbedTextCall
  | genCall
  | dbAcquire
  | dbExecute (sql : String)
  | dbRelease
deriving Repr, DecidableEq

/-- The external collaborators of one run.  genResp, execResp and judgeResp
are indexed by the ordinal of the sql_generation invocation they answer. -/
structure Oracles where
  routerResp : Option RouterParsed
  textEmbed : Option (List Int)
  visualFromImage : Option (List Int)
  visualFromText : Option (List Int)
  thumbUrl : String → Option String
  genResp : Nat → Option String
  execResp : Nat → String → ExecOutcome
  judgeResp : Nat → Option JudgeParsed

/-- ChatAgentState of chat_agent.py (messages is write-only in the source and
kept only for completeness). -/
structure ChatAgentState where
  messages : List String := []
  user_query : String
  conversation_history : List (String × String) := []
  uploaded_image_base64 : Option String := none
  enhanced_query : Option String := none
  query_intent : Option Intent := none
  text_embedding : Option (List Int) := none
  visual_embedding : Option (List Int) := none
  sql_query : Option String := none
  sql_params : Option (List String) := none
  query_results : Option (List Row) := none
  evaluation_feedback : Option String := none
  attempt_count : Nat := 0
  max_attempts : Nat
  final_answer : Option String := none
  sql_query_history : List SqlAttempt := []
deriving Repr, DecidableEq

/-- Python truthiness of an optional string (None and the empty string are
falsy). -/
def truthyS : Option String → Bool
  | none => false
  | some s => !(s == "")

/-- Python truthiness of an optional list (None and the empty list are
falsy). -/
def truthyList : Option (List Int) → Bool
  | none => false
  | some l => !l.isEmpty

/-- Python str.upper (ASCII), as a structurally recursive character-list map
(the core String.toUpper is well-founded recursion and is opaque to the
kernel). -/
def pyUpper (s : String) : String := String.mk (s.data.map Char.toUpper)

/-- Python str.lower (ASCII). -/
def pyLower (s : String) : String := String.mk (s.data.map Char.toLower)

/-- Python str.strip: drop leading and trailing whitespace. -/
def pyStrip (s : String) : String :=
  String.mk (((s.data.dropWhile Char.isWhitespace).reverse.dropWhile
    Char.isWhitespace).reverse)

/-- Prefix test on character lists (Python str.startswith). -/
def listPre : List Char → List Char → Bool
  | [], _ => true
  | _ :: _, [] => false
  | a :: as, b :: bs => a == b && listPre as bs

/-- Python s.startswith pre. -/
def strStarts (s pre : String) : Bool := listPre pre.data s.data

/-- If pat is a leading pattern of the list, return the remainder. -/
def dropMatch : List Char → List Char → Option (List Char)
  | [], rest => some rest
  | _ :: _, [] => none
  | p :: ps, c :: cs => if p == c then dropMatch ps cs else none

/-- Python substring membership test (pat in s). -/
def containsList (pat : List Char) : List Char → Bool
  | [] => (dropMatch pat ([] : List Char)).isSome
  | c :: rest => (dropMatch pat (c :: rest)).isSome || containsList pat rest

/-- Python pat in s. -/
def pyContains (s pat : String) : Bool := containsList pat.data s.data

/-- Replace every occurrence of a (non-empty) pattern, fuelled by the input
length so that the recursion is structural; with fuel = input length this is
Python str.replace for non-empty patterns. -/
def replaceFuel (pat rep : List Char) : Nat → List Char → List Char
  | _, [] => []
  | 0, l => l
  | Nat.succ n, c :: rest =>
    match dropMatch pat (c :: rest) with
    | some remainder => rep ++ replaceFuel pat rep n remainder
    | none => c :: replaceFuel pat rep n rest

/-- Python s.replace pat rep (both placeholder patterns in the source are
non-empty literals). -/
def pyReplace (s pat rep : String) : String :=
  String.mk (replaceFuel pat.data rep.data s.data.length s.data)

/-- The tool-vocabulary filter of result_evaluation_node. -/
def mentionsTool (summary : String) : Bool :=
  pyContains (pyLower summary) "tool" || pyContains (pyLower summary) "function"

/-- Vector literal formatting of chat_agent.py. -/
def embeddingStr (e : List Int) : String :=
  "[" ++ String.intercalate "," (e.map (fun x => toString x)) ++ "]"

/-- The SELECT-only validation of result_evaluation_node (and of
execute_generated_sql in database.py). -/
def sqlGuardOk (sql : String) : Bool :=
  let u := pyUpper (pyStrip sql)
  strStarts u "SELECT" || strStarts u "WITH"

/-- Canned direct answer used when the router classifies the turn as
non-database but returned no direct_answer field. -/
def defaultDirectAnswer : String :=
  "I\x27m designed to help with CG production asset database queries. Your question doesn\x27t seem related to the database. Could you ask about files, metadata, shows, or production data?"

/-- Fallback intent of the router parse-failure paths. -/
def defaultIntent : Intent :=
  { search_type := some "similarity", needs_text_embedding := some true }

/-- Terminal answer of result_evaluation_node when no SQL text is available. -/
def noSqlAnswer : String :=
  "I was unable to generate a valid SQL query for your request. Please try reformatting your question."

/-- Feedback produced when the SELECT-only validation raises ValueError. -/
def selectOnlyError : String :=
  "SQL execution error: Only SELECT queries are allowed"

/-- Default feedback when the judge response carries no feedback field. -/
def defaultFeedback : String := "Results did not match query intent"

/-- Default summary when the judge response carries no summary field. -/
def defaultSummary : String := "Results found."

/-- The simple count answer used both by the tool-vocabulary filter and by
the judgment-parse-failure fallback. -/
def foundResultsMsg (n : Nat) : String :=
  "Found " ++ toString n ++ " results."

/-- Budget-exhaustion hedge answer for a non-empty result set. -/
def hedgeFoundMsg (n : Nat) : String :=
  "I found " ++ toString n ++ " results, but they may not fully answer your question. Please try rephrasing or being more specific."

/-- Budget-exhaustion hedge answer for an empty result set. -/
def hedgeEmptyMsg : String :=
  "I couldn\x27t find results matching your query. The database might not contain this information, or try rephrasing your question."

/-- Judgment-parse-failure fallback answer for an empty result set. -/
def noResultsAnswer : String := "No results found for your query."

/-- Association-list lookup on a row (Python dict access; the outer Option is
key presence, the inner one is a null value). -/
def rowLookup (r : Row) (k : String) : Option (Option String) :=
  (r.find? (fun p => p.1 == k)).map (fun p => p.2)

/-- result.get with empty-string default, as used for file_type in
database.py. -/
def fileTypeOf (r : Row) : Option String :=
  match rowLookup r "file_type" with
  | none => some ""
  | some v => v

/-- Thumbnail path selection of database.py. -/
def thumbPathOf (r : Row) : Option String :=
  if fileTypeOf r == some "blend" then (rowLookup r "blend_thumbnail").getD none
  else if fileTypeOf r == some "image" then (rowLookup r "image_thumbnail").getD none
  else if fileTypeOf r == some "video" then (rowLookup r "video_thumbnail").getD none
  else none

/-- Python dict assignment: overwrite the key if present, append otherwise. -/
def setRowKey (r : Row) (k : String) (v : Option String) : Row :=
  if (r.find? (fun p => p.1 == k)).isSome then
    r.map (fun p => if p.1 == k then (p.1, v) else p)
  else r ++ [(k, v)]

/-- The add-thumbnail-urls enrichment of database.py (the presigned-URL call
is the thumb oracle; a falsy thumbnail path yields a null URL). -/
def add_thumbnail_urls (thumb : String → Option String) (rows : List Row) : List Row :=
  rows.map (fun r =>
    match thumbPathOf r with
    | some path =>
        if path == "" then setRowKey r "thumbnail_url" none
        else setRowKey r "thumbnail_url" (thumb path)
    | none => setRowKey r "thumbnail_url" none)

/-- Python history mutation: if the list is non-empty, replace its last
element by f of it. -/
def backfillLast (f : SqlAttempt → SqlAttempt) : List SqlAttempt → List SqlAttempt
  | [] => []
  | [a] => [f a]
  | a :: b :: t => a :: backfillLast f (b :: t)

/-- The final-answer text of a satisfactory verdict: the model summary unless
it leaks tool vocabulary, in which case a generic count sentence. -/
def effectiveSummary (j : JudgeParsed) (n : Nat) : String :=
  let base := j.summary.getD defaultSummary
  if mentionsTool base then foundResultsMsg n else base

/-- MAX_ATTEMPTS of chat_agent.py. -/
def MAX_ATTEMPTS : Nat := 2

/-- query_router of chat_agent.py.  resp = none models an unparseable model
response (no brace substring, or a JSON decode error); both Python branches
fall back identically. -/
def query_router (resp : Option RouterParsed) (s : ChatAgentState) : ChatAgentState :=
  match resp with
  | some parsed =>
    if parsed.is_database_query.getD true = false then
      { s with final_answer := some (parsed.direct_answer.getD defaultDirectAnswer),
               query_results := some [] }
    else
      { s with enhanced_query := some (parsed.enhanced_query.getD s.user_query),
               query_intent := some (parsed.intent.getD {}) }
  | none =>
    { s with enhanced_query := some s.user_query,
             query_intent := some defaultIntent }

/-- Message of the AttributeError raised by intent.get when the stored
query_intent is None. -/
def attributeErrorNoneGet : String :=
  "AttributeError: \x27NoneType\x27 object has no attribute \x27get\x27"

/-- embedding_determination_node of chat_agent.py.  run_chat_agent sets every
key of the initial LangGraph state, so the query_intent key is always present
and state.get(query_intent, default) returns the stored value even when that
value is None; a None intent (the state's Option field being none) then
raises AttributeError at the first intent.get call, modelled as Except.error.
A failed embedding call (the oracle value none) leaves the corresponding
vector absent. -/
def embedding_determination_node (o : Oracles) (s : ChatAgentState) :
    Except String (ChatAgentState × List Event) :=
  match s.query_intent with
  | none => Except.error attributeErrorNoneGet
  | some intent =>
    let r1 : ChatAgentState × List Event :=
      if intent.needs_text_embedding.getD false then
        ({ s with text_embedding := o.textEmbed }, [Event.textEmbedCall])
      else (s, [])
    if intent.needs_visual_embedding.getD false then
      if truthyS s.uploaded_image_base64 then
        Except.ok ({ r1.1 with visual_embedding := o.visualFromImage },
          r1.2 ++ [Event.visualEmbedImageCall])
      else
        Except.ok ({ r1.1 with visual_embedding := o.visualFromText },
          r1.2 ++ [Event.visualEmbedTextCall])
    else Except.ok r1

/-- The placeholder substitution of sql_generation_node: each placeholder is
replaced only when the corresponding embedding is truthy (present and
non-empty). -/
def substEmbeddings (s : ChatAgentState) (sql : String) : String :=
  let sql1 :=
    if truthyList s.text_embedding then
      pyReplace sql "[EMBEDDING_VECTOR]" (embeddingStr (s.text_embedding.getD []))
    else sql
  if truthyList s.visual_embedding then
    pyReplace sql1 "[VISUAL_EMBEDDING]" (embeddingStr (s.visual_embedding.getD []))
  else sql1

/-- sql_generation_node of chat_agent.py.  r = none models an unparseable
generation response (sql_query is cleared and nothing is appended); r = some
sql models parsed.get of the sql field (possibly the empty string). -/
def sql_generation_node (r : Option String) (s : ChatAgentState) : ChatAgentState :=
  match r with
  | none => { s with sql_query := none }
  | some sql0 =>
    let sql := substEmbeddings s sql0
    { s with sql_query := some sql,
             sql_query_history :=
               s.sql_query_history ++ [{ sql := sql, attempt := s.attempt_count + 1 }] }

/-- Backfill of the last history record with the executed results. -/
def backfillResults (results : List Row) (a : SqlAttempt) : SqlAttempt :=
  { a with results := some results, result_count := some results.length }

/-- Backfill of the last history record with rejection feedback. -/
def backfillFeedback (fb : String) (a : SqlAttempt) : SqlAttempt :=
  { a with feedback := some fb, satisfactory := some false }

/-- The post-execution (judge) half of result_evaluation_node: backfill the
results, then branch on the parsed evaluation response. -/
def evalJudge (o : Oracles) (i : Nat) (s : ChatAgentState) (sql : String)
    (rows : List Row) : ChatAgentState × List Event :=
  let results := add_thumbnail_urls o.thumbUrl rows
  let s1 := { s with
    query_results := some results,
    sql_query_history := backfillLast (backfillResults results) s.sql_query_history }
  let evs := [Event.dbAcquire, Event.dbExecute sql, Event.dbRelease]
  match o.judgeResp i with
  | none =>
    if results.isEmpty then ({ s1 with final_answer := some noResultsAnswer }, evs)
    else ({ s1 with final_answer := some (foundResultsMsg results.length) }, evs)
  | some j =>
    if j.satisfactory.getD false = true then
      ({ s1 with final_answer := some (effectiveSummary j results.length) }, evs)
    else
      let fb := j.feedback.getD defaultFeedback
      let s2 := { s1 with
        evaluation_feedback := some fb,
        sql_query_history := backfillLast (backfillFeedback fb) s1.sql_query_history }
      if s2.max_attempts ≤ s2.attempt_count + 1 then
        if results.isEmpty then ({ s2 with final_answer := some hedgeEmptyMsg }, evs)
        else ({ s2 with final_answer := some (hedgeFoundMsg results.length) }, evs)
      else ({ s2 with attempt_count := s2.attempt_count + 1 }, evs)

/-- result_evaluation_node of chat_agent.py.  The event list records the
get_connection, cursor.execute and release_connection calls; note that the
source releases the connection only on the successful path (the except branch
returns without release_connection). -/
def result_evaluation_node (o : Oracles) (i : Nat) (s : ChatAgentState) :
    ChatAgentState × List Event :=
  if truthyS s.sql_query = false then
    ({ s with final_answer := some noSqlAnswer, query_results := some [] }, [])
  else
    let sql := s.sql_query.getD ""
    if sqlGuardOk sql = false then
      ({ s with query_results := some [],
                evaluation_feedback := some selectOnlyError,
                attempt_count := s.attempt_count + 1 }, [Event.dbAcquire])
    else
      match o.execResp i sql with
      | ExecOutcome.err msg =>
        ({ s with query_results := some [],
                  evaluation_feedback := some ("SQL execution error: " ++ msg),
                  attempt_count := s.attempt_count + 1 },
         [Event.dbAcquire, Event.dbExecute sql])
      | ExecOutcome.ok rows => evalJudge o i s sql rows

/-- should_retry_sql of chat_agent.py (true means the retry edge). -/
def should_retry_sql (s : ChatAgentState) : Bool :=
  if truthyS s.final_answer then false
  else truthyS s.evaluation_feedback && decide (s.attempt_count < s.max_attempts)

/-- The sql_generation / result_evaluation loop of the compiled graph, with
explicit fuel standing for the LangGraph recursion limit. -/
def loopSql (o : Oracles) : Nat → Nat → ChatAgentState → List Event →
    Option (ChatAgentState × List Event)
  | 0, _, _, _ => none
  | Nat.succ fuel, i, s, tr =>
    let s1 := sql_generation_node (o.genResp i) s
    let p := result_evaluation_node o i s1
    let tr2 := tr ++ [Event.genCall] ++ p.2
    if should_retry_sql p.1 then loopSql o fuel (i + 1) p.1 tr2
    else some (p.1, tr2)

/-- The initial state built by run_chat_agent. -/
def initState (query : String) (hist : List (String × String))
    (img : Option String) (maxA : Nat) : ChatAgentState :=
  { messages := [query], user_query := query, conversation_history := hist,
    uploaded_image_base64 := img, max_attempts := maxA }

/-- The result dictionary returned by run_chat_agent. -/
structure AgentOutcome where
  final_answer : Option String
  query_results : Option (List Row)
  sql_query : Option String
  enhanced_query : Option String
  all_sql_queries : List SqlAttempt
  attempts : Nat
deriving Repr, DecidableEq

/-- Projection of the terminal graph state into the run_chat_agent return
value (attempts is the internal counter plus one). -/
def mkOutcome (s : ChatAgentState) : AgentOutcome :=
  { final_answer := s.final_answer, query_results := s.query_results,
    sql_query := s.sql_query, enhanced_query := s.enhanced_query,
    all_sql_queries := s.sql_query_history, attempts := s.attempt_count + 1 }

/-- Result of one terminating run: the returned dictionary, the terminal
graph state and the external-call trace. -/
structure RunResult where
  outcome : AgentOutcome
  state : ChatAgentState
  trace : List Event
deriving Repr, DecidableEq

/-- run_chat_agent of chat_agent.py: build the initial state and invoke the
compiled graph (router, conditional early exit on a truthy final_answer,
embedding determination, then the generation/evaluation loop).  A run that
produces no outcome is none: either the recursion limit was hit, or a node
raised (the AttributeError of embedding_determination_node), in which case
agent.invoke propagates the exception and no result dictionary is built. -/
def run_chat_agent (o : Oracles) (query : String) (hist : List (String × String))
    (img : Option String) (maxA : Nat) (fuel : Nat) : Option RunResult :=
  if truthyS (query_router o.routerResp (initState query hist img maxA)).final_answer then
    some { outcome := mkOutcome (query_router o.routerResp (initState query hist img maxA)),
           state := query_router o.routerResp (initState query hist img maxA),
           trace := [Event.routerCall] }
  else
    match embedding_determination_node o
        (query_router o.routerResp (initState query hist img maxA)) with
    | Except.error _ => none
    | Except.ok p =>
      match loopSql o fuel 0 p.1 ([Event.routerCall] ++ p.2) with
      | some q => some { outcome := mkOutcome q.1, state := q.1, trace := q.2 }
      | none => none

/-- The expected ordinal sequence 1, 2, ..., n of the attempt fields. -/
def ordinalSeq (n : Nat) : List Nat := (List.range n).map (fun k => k + 1)

/-- A judge oracle entry is good when any satisfactory verdict it returns
carries a summary that survives as a truthy final answer (non-empty, or
replaced by the non-empty count sentence by the tool filter). -/
def goodJudge (r : Option JudgeParsed) : Prop :=
  ∀ j, r = some j → j.satisfactory.getD false = true →
    mentionsTool (j.summary.getD defaultSummary) = true ∨
      j.summary.getD defaultSummary ≠ ""

/-- Last-record satisfactory mark of the attempt history. -/
def lastSatisfactory (s : ChatAgentState) : Option Bool :=
  s.sql_query_history.getLast?.bind (fun a => a.satisfactory)

theorem truthyS_of_ne {x : String} (h : x ≠ "") : truthyS (some x) = true := by
  simp [truthyS, h]

theorem foundResultsMsg_ne (n : Nat) : foundResultsMsg n ≠ "" := by
  intro h
  have h2 := congrArg String.data h
  simp [foundResultsMsg, String.data_append] at h2

theorem hedgeFoundMsg_ne (n : Nat) : hedgeFoundMsg n ≠ "" := by
  intro h
  have h2 := congrArg String.data h
  simp [hedgeFoundMsg, String.data_append] at h2

theorem should_retry_false_of_final {s : ChatAgentState}
    (h : truthyS s.final_answer = true) : should_retry_sql s = false := by
  simp [should_retry_sql, h]

theorem should_retry_true_elim {s : ChatAgentState} (h : should_retry_sql s = true) :
    truthyS s.final_answer = false ∧ truthyS s.evaluation_feedback = true ∧
      s.attempt_count < s.max_attempts := by
  by_cases h1 : truthyS s.final_answer = true
  · rw [should_retry_false_of_final h1] at h; exact absurd h (by simp)
  · have h1f : truthyS s.final_answer = false := by
      cases hb : truthyS s.final_answer
      · rfl
      · exact absurd hb h1
    refine ⟨h1f, ?_, ?_⟩ <;> simp [should_retry_sql, h1f] at h
    · exact h.1
    · exact h.2

theorem backfillLast_map_attempt (f : SqlAttempt → SqlAttempt)
    (h : ∀ a, (f a).attempt = a.attempt) :
    ∀ l, (backfillLast f l).map (fun a => a.attempt) = l.map (fun a => a.attempt)
  | [] => rfl
  | [a] => by simp [backfillLast, h]
  | a :: b :: t => by
    simp only [backfillLast, List.map_cons]
    rw [backfillLast_map_attempt f h (b :: t)]
    simp

theorem backfillLast_length (f : SqlAttempt → SqlAttempt) :
    ∀ l, (backfillLast f l).length = l.length
  | [] => rfl
  | [_] => rfl
  | a :: b :: t => by
    simp only [backfillLast, List.length_cons]
    rw [backfillLast_length f (b :: t)]
    simp

theorem backfillLast_getLast? (f : SqlAttempt → SqlAttempt) :
    ∀ l, (backfillLast f l).getLast? = l.getLast?.map f
  | [] => rfl
  | [_] => rfl
  | a :: b :: t => by
    have ih := backfillLast_getLast? f (b :: t)
    have hcons : ∃ c cs, backfillLast f (b :: t) = c :: cs := by
      cases t with
      | nil => exact ⟨f b, [], rfl⟩
      | cons x xs => exact ⟨b, backfillLast f (x :: xs), rfl⟩
    obtain ⟨c, cs, hc⟩ := hcons
    rw [backfillLast, hc, List.getLast?_cons_cons, ← hc, ih, List.getLast?_cons_cons]

theorem backfillLast_res_map (rs : List Row) (l : List SqlAttempt) :
    (backfillLast (backfillResults rs) l).map (fun a => a.attempt)
      = l.map (fun a => a.attempt) :=
  backfillLast_map_attempt (backfillResults rs) (fun _ => rfl) l

theorem backfillLast_fb_map (fb : String) (l : List SqlAttempt) :
    (backfillLast (backfillFeedback fb) l).map (fun a => a.attempt)
      = l.map (fun a => a.attempt) :=
  backfillLast_map_attempt (backfillFeedback fb) (fun _ => rfl) l

theorem query_router_facts (r : Option RouterParsed) (s : ChatAgentState) :
    (query_router r s).attempt_count = s.attempt_count ∧
    (query_router r s).max_attempts = s.max_attempts ∧
    (query_router r s).sql_query_history = s.sql_query_history := by
  cases r with
  | none => exact ⟨rfl, rfl, rfl⟩
  | some p =>
    by_cases hp : p.is_database_query.getD true = false <;> simp [query_router, hp]

theorem embedding_node_facts (o : Oracles) (s : ChatAgentState)
    (p : ChatAgentState × List Event)
    (hp : embedding_determination_node o s = Except.ok p) :
    (p.1.attempt_count = s.attempt_count) ∧
    (p.1.max_attempts = s.max_attempts) ∧
    (p.1.sql_query_history = s.sql_query_history) ∧
    (p.1.final_answer = s.final_answer) ∧
    (p.1.evaluation_feedback = s.evaluation_feedback) := by
  unfold embedding_determination_node at hp
  cases hqi : s.query_intent with
  | none =>
    rw [hqi] at hp
    simp at hp
  | some intent =>
    rw [hqi] at hp
    by_cases h1 : intent.needs_text_embedding.getD false = true <;>
    by_cases h2 : intent.needs_visual_embedding.getD false = true <;>
    by_cases h3 : truthyS s.uploaded_image_base64 = true <;>
      (simp [h1, h2, h3] at hp; rw [← hp]; simp)

theorem gen_count (r : Option String) (s : ChatAgentState) :
    (sql_generation_node r s).attempt_count = s.attempt_count := by
  cases r <;> rfl

theorem gen_max (r : Option String) (s : ChatAgentState) :
    (sql_generation_node r s).max_attempts = s.max_attempts := by
  cases r <;> rfl

theorem gen_sql_none (s : ChatAgentState) :
    (sql_generation_node none s).sql_query = none := rfl

theorem gen_hist_none (s : ChatAgentState) :
    (sql_generation_node none s).sql_query_history = s.sql_query_history := rfl

theorem gen_hist_some (sql : String) (s : ChatAgentState) :
    (sql_generation_node (some sql) s).sql_query_history
      = s.sql_query_history
          ++ [{ sql := substEmbeddings s sql, attempt := s.attempt_count + 1 }] := rfl

theorem ordinalSeq_length (n : Nat) : (ordinalSeq n).length = n := by
  simp [ordinalSeq]

theorem ordinalSeq_succ (n : Nat) : ordinalSeq (n + 1) = ordinalSeq n ++ [n + 1] := by
  simp [ordinalSeq, List.range_succ]

theorem evalJudge_hist_facts (o : Oracles) (i : Nat) (s : ChatAgentState)
    (sql : String) (rows : List Row) :
    ((evalJudge o i s sql rows).1.sql_query_history.map (fun a => a.attempt)
        = s.sql_query_history.map (fun a => a.attempt)) ∧
    ((evalJudge o i s sql rows).1.sql_query_history.length
        = s.sql_query_history.length) ∧
    ((evalJudge o i s sql rows).1.max_attempts = s.max_attempts) := by
  unfold evalJudge
  cases hj : o.judgeResp i with
  | none =>
    by_cases he : (add_thumbnail_urls o.thumbUrl rows).isEmpty = true <;>
      simp [he, backfillLast_res_map, backfillLast_length]
  | some j =>
    by_cases hsat : j.satisfactory.getD false = true
    · simp [hsat, backfillLast_res_map, backfillLast_length]
    · by_cases hb : s.max_attempts ≤ s.attempt_count + 1 <;>
        by_cases he : (add_thumbnail_urls o.thumbUrl rows).isEmpty = true <;>
        simp [hsat, hb, he, backfillLast_res_map, backfillLast_fb_map,
          backfillLast_length]

theorem eval_hist_facts (o : Oracles) (i : Nat) (s : ChatAgentState) :
    ((result_evaluation_node o i s).1.sql_query_history.map (fun a => a.attempt)
        = s.sql_query_history.map (fun a => a.attempt)) ∧
    ((result_evaluation_node o i s).1.sql_query_history.length
        = s.sql_query_history.length) ∧
    ((result_evaluation_node o i s).1.max_attempts = s.max_attempts) := by
  by_cases h1 : truthyS s.sql_query = false
  · simp [result_evaluation_node, h1]
  · simp only [result_evaluation_node, if_neg h1]
    by_cases h2 : sqlGuardOk (s.sql_query.getD "") = false
    · simp [h2]
    · simp only [if_neg h2]
      cases hx : o.execResp i (s.sql_query.getD "") with
      | err msg => simp
      | ok rows => exact evalJudge_hist_facts o i s _ rows

theorem eval_retry_sql (o : Oracles) (i : Nat) (s : ChatAgentState)
    (hr : should_retry_sql (result_evaluation_node o i s).1 = true) :
    truthyS s.sql_query = true := by
  cases hb : truthyS s.sql_query with
  | true => rfl
  | false =>
    exfalso
    unfold result_evaluation_node at hr
    rw [if_pos hb] at hr
    simp [should_retry_sql,
      truthyS_of_ne (show noSqlAnswer ≠ "" from by decide)] at hr

theorem evalJudge_retry_count (o : Oracles) (i : Nat) (s : ChatAgentState)
    (sql : String) (rows : List Row) (hg : goodJudge (o.judgeResp i))
    (hr : should_retry_sql (evalJudge o i s sql rows).1 = true) :
    (evalJudge o i s sql rows).1.attempt_count = s.attempt_count + 1 := by
  unfold evalJudge at hr ⊢
  cases hj : o.judgeResp i with
  | none =>
    exfalso
    rw [hj] at hr
    by_cases he : (add_thumbnail_urls o.thumbUrl rows).isEmpty = true
    · simp [he, should_retry_sql,
        truthyS_of_ne (show noResultsAnswer ≠ "" from by decide)] at hr
    · simp [he, should_retry_sql, truthyS_of_ne (foundResultsMsg_ne _)] at hr
  | some j =>
    rw [hj] at hr
    by_cases hsat : j.satisfactory.getD false = true
    · exfalso
      have hef : effectiveSummary j (add_thumbnail_urls o.thumbUrl rows).length ≠ "" := by
        rcases hg j hj hsat with hL | hR
        · simp [effectiveSummary, hL]
          exact foundResultsMsg_ne _
        · unfold effectiveSummary
          by_cases hm : mentionsTool (j.summary.getD defaultSummary) = true
          · simp [hm]
            exact foundResultsMsg_ne _
          · simp [hm]
            exact hR
      simp [hsat, should_retry_sql, truthyS_of_ne hef] at hr
    · by_cases hbud : s.max_attempts ≤ s.attempt_count + 1
      · exfalso
        by_cases he : (add_thumbnail_urls o.thumbUrl rows).isEmpty = true
        · simp [hsat, hbud, he, should_retry_sql,
            truthyS_of_ne (show hedgeEmptyMsg ≠ "" from by decide)] at hr
        · simp [hsat, hbud, he, should_retry_sql,
            truthyS_of_ne (hedgeFoundMsg_ne _)] at hr
      · simp [hsat, hbud]

theorem eval_retry_count (o : Oracles) (i : Nat) (s : ChatAgentState)
    (hg : goodJudge (o.judgeResp i))
    (hr : should_retry_sql (result_evaluation_node o i s).1 = true) :
    (result_evaluation_node o i s).1.attempt_count = s.attempt_count + 1 := by
  have hsql : truthyS s.sql_query = true := eval_retry_sql o i s hr
  have h1 : ¬(truthyS s.sql_query = false) := by simp [hsql]
  unfold result_evaluation_node at hr ⊢
  rw [if_neg h1] at hr ⊢
  by_cases h2 : sqlGuardOk (s.sql_query.getD "") = false
  · rw [if_pos h2] at hr ⊢
  · rw [if_neg h2] at hr ⊢
    cases hx : o.execResp i (s.sql_query.getD "") with
    | err msg => rfl
    | ok rows =>
      rw [hx] at hr
      exact evalJudge_retry_count o i s _ rows hg hr

theorem loopSql_invariant (o : Oracles) (hg : ∀ n, goodJudge (o.judgeResp n)) :
    ∀ fuel i s tr res, loopSql o fuel i s tr = some res →
      s.attempt_count = i →
      s.sql_query_history.map (fun a => a.attempt) = ordinalSeq i →
      i < s.max_attempts →
      (res.1.sql_query_history.map (fun a => a.attempt)
          = ordinalSeq res.1.sql_query_history.length
        ∧ res.1.sql_query_history.length ≤ s.max_attempts
        ∧ res.1.max_attempts = s.max_attempts) := by
  intro fuel
  induction fuel with
  | zero =>
    intro i s tr res h _ _ _
    simp [loopSql] at h
  | succ n ih =>
    intro i s tr res hrun hc hm hlt
    have hlen : s.sql_query_history.length = i := by
      have h2 := congrArg List.length hm
      simpa [ordinalSeq_length] using h2
    simp only [loopSql] at hrun
    by_cases hret : should_retry_sql
        (result_evaluation_node o i (sql_generation_node (o.genResp i) s)).1 = true
    · rw [if_pos hret] at hrun
      have hsql := eval_retry_sql o i _ hret
      cases hgen : o.genResp i with
      | none =>
        exfalso
        rw [hgen, gen_sql_none] at hsql
        simp [truthyS] at hsql
      | some sql0 =>
        rw [hgen] at hrun hret
        have hef := eval_hist_facts o i (sql_generation_node (some sql0) s)
        have hcount2 : (result_evaluation_node o i
            (sql_generation_node (some sql0) s)).1.attempt_count = i + 1 := by
          rw [eval_retry_count o i _ (hg i) hret, gen_count, hc]
        have hmap2 : (result_evaluation_node o i
            (sql_generation_node (some sql0) s)).1.sql_query_history.map
              (fun a => a.attempt) = ordinalSeq (i + 1) := by
          rw [hef.1, gen_hist_some]
          simp [hm, hc, ordinalSeq_succ]
        have hmax2 : (result_evaluation_node o i
            (sql_generation_node (some sql0) s)).1.max_attempts = s.max_attempts := by
          rw [hef.2.2, gen_max]
        have hlt2 : i + 1 < (result_evaluation_node o i
            (sql_generation_node (some sql0) s)).1.max_attempts := by
          have h3 := (should_retry_true_elim hret).2.2
          rw [hcount2] at h3
          exact h3
        have hres := ih (i + 1) _ _ res hrun hcount2 hmap2 hlt2
        rw [hmax2] at hres
        exact hres
    · rw [if_neg hret] at hrun
      have hres := Option.some.inj hrun
      have hres1 : res.1
          = (result_evaluation_node o i (sql_generation_node (o.genResp i) s)).1 := by
        rw [← hres]
      have hef := eval_hist_facts o i (sql_generation_node (o.genResp i) s)
      cases hgen : o.genResp i with
      | none =>
        rw [hgen] at hres1 hef
        have hmapr : res.1.sql_query_history.map (fun a => a.attempt) = ordinalSeq i := by
          rw [hres1, hef.1, gen_hist_none, hm]
        have hlenr : res.1.sql_query_history.length = i := by
          rw [hres1, hef.2.1, gen_hist_none, hlen]
        have hmaxr : res.1.max_attempts = s.max_attempts := by
          rw [hres1, hef.2.2, gen_max]
        refine ⟨?_, ?_, hmaxr⟩
        · rw [hmapr, hlenr]
        · rw [hlenr]
          exact Nat.le_of_lt hlt
      | some sql0 =>
        rw [hgen] at hres1 hef
        have hmapr : res.1.sql_query_history.map (fun a => a.attempt)
            = ordinalSeq (i + 1) := by
          rw [hres1, hef.1, gen_hist_some]
          simp [hm, hc, ordinalSeq_succ]
        have hlenr : res.1.sql_query_history.length = i + 1 := by
          have h2 := congrArg List.length hmapr
          simpa [ordinalSeq_length] using h2
        have hmaxr : res.1.max_attempts = s.max_attempts := by
          rw [hres1, hef.2.2, gen_max]
        refine ⟨?_, ?_, hmaxr⟩
        · rw [hmapr, hlenr]
        · rw [hlenr]
          exact Nat.succ_le_of_lt hlt

theorem evalJudge_events (o : Oracles) (i : Nat) (s : ChatAgentState)
    (sql : String) (rows : List Row) :
    (evalJudge o i s sql rows).2
      = [Event.dbAcquire, Event.dbExecute sql, Event.dbRelease] := by
  unfold evalJudge
  cases hj : o.judgeResp i with
  | none =>
    by_cases he : (add_thumbnail_urls o.thumbUrl rows).isEmpty = true <;> simp [he]
  | some j =>
    by_cases hsat : j.satisfactory.getD false = true
    · simp [hsat]
    · by_cases hbud : s.max_attempts ≤ s.attempt_count + 1 <;>
        by_cases he : (add_thumbnail_urls o.thumbUrl rows).isEmpty = true <;>
        simp [hsat, hbud, he]

theorem eval_events_guarded (o : Oracles) (i : Nat) (s : ChatAgentState)
    (q : String) (hq : Event.dbExecute q ∈ (result_evaluation_node o i s).2) :
    sqlGuardOk q = true := by
  by_cases h1 : truthyS s.sql_query = false
  · simp [result_evaluation_node, h1] at hq
  · simp only [result_evaluation_node, if_neg h1] at hq
    by_cases h2 : sqlGuardOk (s.sql_query.getD "") = false
    · rw [if_pos h2] at hq
      simp at hq
    · rw [if_neg h2] at hq
      have h2t : sqlGuardOk (s.sql_query.getD "") = true := by
        cases hb : sqlGuardOk (s.sql_query.getD "")
        · exact absurd hb h2
        · rfl
      cases hx : o.execResp i (s.sql_query.getD "") with
      | err msg =>
        rw [hx] at hq
        simp at hq
        rw [hq]
        exact h2t
      | ok rows =>
        rw [hx] at hq
        rw [evalJudge_events] at hq
        simp at hq
        rw [hq]
        exact h2t

theorem embed_events_no_exec (o : Oracles) (s : ChatAgentState)
    (p : ChatAgentState × List Event)
    (hp : embedding_determination_node o s = Except.ok p) (q : String)
    (hq : Event.dbExecute q ∈ p.2) : False := by
  unfold embedding_determination_node at hp
  cases hqi : s.query_intent with
  | none =>
    rw [hqi] at hp
    simp at hp
  | some intent =>
    rw [hqi] at hp
    by_cases h1 : intent.needs_text_embedding.getD false = true <;>
    by_cases h2 : intent.needs_visual_embedding.getD false = true <;>
    by_cases h3 : truthyS s.uploaded_image_base64 = true <;>
      (simp [h1, h2, h3] at hp; rw [← hp] at hq; simp at hq)

theorem loopSql_events (o : Oracles) :
    ∀ fuel i s tr res, loopSql o fuel i s tr = some res →
      (∀ q, Event.dbExecute q ∈ tr → sqlGuardOk q = true) →
      ∀ q, Event.dbExecute q ∈ res.2 → sqlGuardOk q = true := by
  intro fuel
  induction fuel with
  | zero =>
    intro i s tr res h _
    simp [loopSql] at h
  | succ n ih =>
    intro i s tr res hrun hbase
    have hnext : ∀ q, Event.dbExecute q ∈
        tr ++ [Event.genCall]
          ++ (result_evaluation_node o i (sql_generation_node (o.genResp i) s)).2 →
        sqlGuardOk q = true := by
      intro q hq
      rcases List.mem_append.mp hq with h | h
      · rcases List.mem_append.mp h with h2 | h2
        · exact hbase q h2
        · simp at h2
      · exact eval_events_guarded o i _ q h
    simp only [loopSql] at hrun
    by_cases hret : should_retry_sql
        (result_evaluation_node o i (sql_generation_node (o.genResp i) s)).1 = true
    · rw [if_pos hret] at hrun
      exact ih (i + 1) _ _ res hrun hnext
    · rw [if_neg hret] at hrun
      intro q hq
      have hres := Option.some.inj hrun
      rw [← hres] at hq
      exact hnext q hq

theorem loop_gen_none_facts (o : Oracles) (n i : Nat) (s : ChatAgentState)
    (tr : List Event) (res : ChatAgentState × List Event)
    (hgen : o.genResp i = none)
    (hrun : loopSql o (n + 1) i s tr = some res) :
    res.1.attempt_count = s.attempt_count
      ∧ res.1.sql_query_history = s.sql_query_history := by
  simp only [loopSql] at hrun
  rw [hgen] at hrun
  have heval : result_evaluation_node o i (sql_generation_node none s)
      = ({ sql_generation_node none s with
            final_answer := some noSqlAnswer, query_results := some [] }, []) := by
    unfold result_evaluation_node
    rw [if_pos (show truthyS (sql_generation_node none s).sql_query = false from rfl)]
  rw [heval] at hrun
  have hsr : should_retry_sql ({ sql_generation_node none s with
      final_answer := some noSqlAnswer, query_results := some [] }) = false := by
    apply should_retry_false_of_final
    exact truthyS_of_ne (show noSqlAnswer ≠ "" from by decide)
  rw [if_neg (by simp [hsr])] at hrun
  have hres := Option.some.inj hrun
  rw [← hres]
  exact ⟨rfl, rfl⟩

/-- Claim C9: when the Intent Router model response yields no parseable JSON
object (modelled as the router oracle returning none), the router does not
fail: the turn is treated as a database query (final_answer stays none, so
the conditional edge continues into the SQL pipeline), enhanced_query is the
raw user query, and query_intent is the default intent with
search_type similarity and needs_text_embedding true. -/
theorem c9_router_fallback_defaults (q : String) (hist : List (String × String))
    (img : Option String) (maxA : Nat) :
    (query_router none (initState q hist img maxA)).final_answer = none
    ∧ (query_router none (initState q hist img maxA)).enhanced_query = some q
    ∧ (query_router none (initState q hist img maxA)).query_intent = some defaultIntent
    ∧ defaultIntent.search_type = some "similarity"
    ∧ defaultIntent.needs_text_embedding = some true
    ∧ truthyS (query_router none (initState q hist img maxA)).final_answer = false :=
  ⟨rfl, rfl, rfl, rfl, rfl, rfl⟩

/-- Claim C7: in every terminating run, every SQL text passed to
cursor.execute (every dbExecute event of the trace) satisfies the SELECT-only
validation: after stripping and upcasing it starts with SELECT or WITH.
Statements failing the guard raise ValueError before cursor.execute and are
never executed. -/
theorem c7_only_select_or_with_executed (o : Oracles) (query : String)
    (hist : List (String × String)) (img : Option String) (maxA fuel : Nat)
    (r : RunResult) (sql : String)
    (hr : run_chat_agent o query hist img maxA fuel = some r)
    (hm : Event.dbExecute sql ∈ r.trace) : sqlGuardOk sql = true := by
  unfold run_chat_agent at hr
  by_cases h1 : truthyS
      (query_router o.routerResp (initState query hist img maxA)).final_answer = true
  · rw [if_pos h1] at hr
    have hres := Option.some.inj hr
    rw [← hres] at hm
    simp at hm
  · rw [if_neg h1] at hr
    cases hemb : embedding_determination_node o
        (query_router o.routerResp (initState query hist img maxA)) with
    | error e =>
      rw [hemb] at hr
      simp at hr
    | ok p =>
      rw [hemb] at hr
      dsimp only at hr
      cases hloop : loopSql o fuel 0 p.1 ([Event.routerCall] ++ p.2) with
      | none =>
        rw [hloop] at hr
        exact absurd hr (by simp)
      | some res =>
        rw [hloop] at hr
        have hres := Option.some.inj hr
        rw [← hres] at hm
        refine loopSql_events o fuel 0 _ _ res hloop ?_ sql hm
        intro q2 hq2
        rcases List.mem_append.mp hq2 with h | h
        · simp at h
        · exact (embed_events_no_exec o _ p hemb q2 h).elim

def c7Router : RouterParsed :=
  { is_database_query := some true, enhanced_query := some "count files", intent := some {} }

def c7Oracles : Oracles :=
  { routerResp := some c7Router,
    textEmbed := none, visualFromImage := none, visualFromText := none,
    thumbUrl := fun _ => none,
    genResp := fun _ => some "SELECT 1",
    execResp := fun _ _ => ExecOutcome.ok [],
    judgeResp := fun _ => some { satisfactory := some true, summary := some "ok" } }

/-- Witness for C7: a concrete run that executes one statement, to which the
theorem applies. -/
theorem c7_only_select_or_with_executed_witness : sqlGuardOk "SELECT 1" = true := by
  have hmem : ((run_chat_agent c7Oracles "q" [] none 2 3).map
      (fun r => decide (Event.dbExecute "SELECT 1" ∈ r.trace))) = some true := by decide
  cases hE : run_chat_agent c7Oracles "q" [] none 2 3 with
  | none =>
    rw [hE] at hmem
    simp at hmem
  | some r =>
    rw [hE] at hmem
    simp at hmem
    exact c7_only_select_or_with_executed c7Oracles "q" [] none 2 3 r "SELECT 1" hE hmem

/-- Claim C10: for every terminating run, the attempts value of the returned
dictionary equals the internal attempt counter plus one, hence is at least 1;
on a direct-answer turn (the router edge finishes) and on a turn whose first
generation response is unparseable, attempts is reported as 1 while
all_sql_queries is empty. -/
theorem c10_attempts_counter (o : Oracles) (query : String)
    (hist : List (String × String)) (img : Option String) (maxA fuel : Nat)
    (r : RunResult) (hr : run_chat_agent o query hist img maxA fuel = some r) :
    (r.outcome.attempts = r.state.attempt_count + 1 ∧ 1 ≤ r.outcome.attempts)
    ∧ (truthyS (query_router o.routerResp
          (initState query hist img maxA)).final_answer = true →
        r.outcome.attempts = 1 ∧ r.outcome.all_sql_queries = [])
    ∧ (truthyS (query_router o.routerResp
          (initState query hist img maxA)).final_answer = false →
        o.genResp 0 = none →
        r.outcome.attempts = 1 ∧ r.outcome.all_sql_queries = []) := by
  unfold run_chat_agent at hr
  by_cases h1 : truthyS
      (query_router o.routerResp (initState query hist img maxA)).final_answer = true
  · rw [if_pos h1] at hr
    have hres := Option.some.inj hr
    refine ⟨⟨?_, ?_⟩, ?_, ?_⟩
    · rw [← hres]
      rfl
    · rw [← hres]
      simp [mkOutcome]
    · intro _
      rw [← hres]
      constructor
      · show (query_router o.routerResp (initState query hist img maxA)).attempt_count + 1 = 1
        rw [(query_router_facts o.routerResp (initState query hist img maxA)).1]
        rfl
      · show (query_router o.routerResp (initState query hist img maxA)).sql_query_history = []
        rw [(query_router_facts o.routerResp (initState query hist img maxA)).2.2]
        rfl
    · intro hcont _
      rw [h1] at hcont
      simp at hcont
  · rw [if_neg h1] at hr
    cases hemb : embedding_determination_node o
        (query_router o.routerResp (initState query hist img maxA)) with
    | error e =>
      rw [hemb] at hr
      simp at hr
    | ok p =>
      rw [hemb] at hr
      dsimp only at hr
      cases hloop : loopSql o fuel 0 p.1 ([Event.routerCall] ++ p.2) with
      | none =>
        rw [hloop] at hr
        exact absurd hr (by simp)
      | some res =>
        rw [hloop] at hr
        have hres := Option.some.inj hr
        refine ⟨⟨?_, ?_⟩, ?_, ?_⟩
        · rw [← hres]
          rfl
        · rw [← hres]
          simp [mkOutcome]
        · intro hcont
          exact absurd hcont h1
        · intro _ hgen
          cases fuel with
          | zero => simp [loopSql] at hloop
          | succ n =>
            have hfacts := loop_gen_none_facts o n 0 _ _ res hgen hloop
            have hcnt : res.1.attempt_count = 0 := by
              rw [hfacts.1,
                (embedding_node_facts o
                  (query_router o.routerResp (initState query hist img maxA)) p hemb).1,
                (query_router_facts o.routerResp (initState query hist img maxA)).1]
              rfl
            have hhist : res.1.sql_query_history = [] := by
              rw [hfacts.2,
                (embedding_node_facts o
                  (query_router o.routerResp (initState query hist img maxA)) p hemb).2.2.1,
                (query_router_facts o.routerResp (initState query hist img maxA)).2.2]
              rfl
            rw [← hres]
            constructor
            · show res.1.attempt_count + 1 = 1
              rw [hcnt]
            · show res.1.sql_query_history = []
              exact hhist

def c10Oracles : Oracles :=
  { routerResp := none,
    textEmbed := none, visualFromImage := none, visualFromText := none,
    thumbUrl := fun _ => none,
    genResp := fun _ => none,
    execResp := fun _ _ => ExecOutcome.ok [],
    judgeResp := fun _ => none }

/-- Witness for C10: a run whose first generation response is unparseable
reports attempts = 1 with an empty history. -/
theorem c10_attempts_counter_witness :
    ((run_chat_agent c10Oracles "hello" [] none 2 2).map
        (fun r => (r.outcome.attempts, r.outcome.all_sql_queries)))
      = some (1, []) := by
  cases hE : run_chat_agent c10Oracles "hello" [] none 2 2 with
  | none => exact absurd hE (by decide)
  | some r =>
    have hc := c10_attempts_counter c10Oracles "hello" [] none 2 2 r hE
    have h3 := hc.2.2 (by decide) rfl
    simp [h3.1, h3.2]

def c1Router : RouterParsed :=
  { is_database_query := some true, enhanced_query := some "count blend files", intent := some {} }

def c1Oracles : Oracles :=
  { routerResp := some c1Router,
    textEmbed := none, visualFromImage := none, visualFromText := none,
    thumbUrl := fun _ => none,
    genResp := fun _ => some "SELECT 1",
    execResp := fun _ _ => ExecOutcome.err "boom",
    judgeResp := fun _ => none }

/-- Claim C1 (violated by the code): in a run where every attempt up to the
budget (MAX_ATTEMPTS = 2) ends in an SQL execution error, the except branch of
result_evaluation_node returns without setting final_answer, and
should_retry_sql then routes to finish with the budget exhausted; the run
terminates normally but final_answer is still None, both in the terminal
state and in the returned dictionary. -/
theorem c1_exec_error_exhaustion_final_answer_none :
    ((run_chat_agent c1Oracles "How many blend files are there?" [] none MAX_ATTEMPTS 5).map
        (fun r => (r.state.final_answer, r.outcome.final_answer,
          r.state.attempt_count, r.state.evaluation_feedback,
          r.state.sql_query_history.length)))
      = some (none, none, 2, some "SQL execution error: boom", 2) := by decide

def c3Router : RouterParsed :=
  { is_database_query := some true, enhanced_query := some "list the files", intent := some {} }

def c3Oracles : Oracles :=
  { routerResp := some c3Router,
    textEmbed := none, visualFromImage := none, visualFromText := none,
    thumbUrl := fun _ => none,
    genResp := fun _ => some "SELECT 1",
    execResp := fun _ _ => ExecOutcome.err "boom",
    judgeResp := fun _ => none }

/-- Claim C3 (violated by the code): result_evaluation_node calls
get_connection inside the try block but release_connection only on the
successful path; in this run both executions raise, so the trace holds two
dbAcquire events, two dbExecute events and zero dbRelease events - the
connections checked out on the error paths are never returned to the pool. -/
theorem c3_connection_not_released_on_error :
    ((run_chat_agent c3Oracles "list the files" [] none MAX_ATTEMPTS 5).map
        (fun r => (r.trace.count Event.dbAcquire, r.trace.count Event.dbRelease,
          r.trace.count (Event.dbExecute "SELECT 1"),
          r.state.evaluation_feedback)))
      = some (2, 0, 2, some "SQL execution error: boom") := by decide

def c2Router : RouterParsed :=
  { is_database_query := some true, enhanced_query := some "similar assets",
    intent := some { needs_text_embedding := some true } }

def c2Sql : String :=
  "SELECT name FROM files ORDER BY metadata_embedding <=> \x27[EMBEDDING_VECTOR]\x27::vector"

def c2Oracles : Oracles :=
  { routerResp := some c2Router,
    textEmbed := none, visualFromImage := none, visualFromText := none,
    thumbUrl := fun _ => none,
    genResp := fun _ => some c2Sql,
    execResp := fun _ _ => ExecOutcome.ok [],
    judgeResp := fun _ => none }

/-- Counterexample to claim C2: the text-embedding call failed (vector absent),
the generated SQL still contains the [EMBEDDING_VECTOR] placeholder, yet the
attempt is not marked failed before execution - the trace shows the placeholder
SQL being passed verbatim to cursor.execute, and the run finishes through the
normal evaluation path. -/
theorem c2_counterexample_placeholder_sql_executed :
    pyContains c2Sql "[EMBEDDING_VECTOR]" = true
    ∧ ((run_chat_agent c2Oracles "find assets" [] none MAX_ATTEMPTS 5).map
        (fun r => (decide (Event.dbExecute c2Sql ∈ r.trace), r.state.text_embedding,
          r.state.sql_query, r.state.final_answer)))
        = some (true, none, some c2Sql, some noResultsAnswer) := by decide

/-- Claim C2 amended: sql_generation_node substitutes a placeholder only when
the corresponding embedding is truthy; with both embeddings unresolved the
generated SQL is stored verbatim (placeholders included), no failure mark is
applied, and whenever the text passes the SELECT/WITH prefix guard it is
passed to cursor.execute. -/
theorem c2_unresolved_placeholder_passes_to_execution (o : Oracles) (i : Nat)
    (s : ChatAgentState) (sql : String)
    (hT : truthyList s.text_embedding = false)
    (hV : truthyList s.visual_embedding = false)
    (hG : sqlGuardOk sql = true) (hne : sql ≠ "") :
    (sql_generation_node (some sql) s).sql_query = some sql
    ∧ Event.dbExecute sql ∈
        (result_evaluation_node o i (sql_generation_node (some sql) s)).2 := by
  have hsub : substEmbeddings s sql = sql := by
    simp [substEmbeddings, hT, hV]
  have hq : (sql_generation_node (some sql) s).sql_query = some sql := by
    simp [sql_generation_node, hsub]
  refine ⟨hq, ?_⟩
  have hne2 : ¬(truthyS (sql_generation_node (some sql) s).sql_query = false) := by
    rw [hq]
    simp [truthyS_of_ne hne]
  unfold result_evaluation_node
  rw [if_neg hne2]
  have hgd : (sql_generation_node (some sql) s).sql_query.getD "" = sql := by
    rw [hq]
    rfl
  rw [hgd]
  rw [if_neg (by simp [hG])]
  cases hx : o.execResp i sql with
  | err msg => simp
  | ok rows =>
    rw [evalJudge_events]
    simp

def c2wOracles : Oracles :=
  { routerResp := none,
    textEmbed := none, visualFromImage := none, visualFromText := none,
    thumbUrl := fun _ => none,
    genResp := fun _ => none,
    execResp := fun _ _ => ExecOutcome.ok [],
    judgeResp := fun _ => none }

def c2wSql : String := "SELECT id FROM files ORDER BY e <=> \x27[VISUAL_EMBEDDING]\x27::vector"

/-- Witness for the amended C2 theorem at a concrete state and oracle. -/
theorem c2_unresolved_placeholder_passes_to_execution_witness :
    (sql_generation_node (some c2wSql) (initState "q" [] none 2)).sql_query = some c2wSql
    ∧ Event.dbExecute c2wSql ∈
        (result_evaluation_node c2wOracles 0
          (sql_generation_node (some c2wSql) (initState "q" [] none 2))).2 :=
  c2_unresolved_placeholder_passes_to_execution c2wOracles 0 (initState "q" [] none 2)
    c2wSql rfl rfl (by decide) (by decide)

def c5Router : RouterParsed :=
  { is_database_query := some true, enhanced_query := some "count files", intent := some {} }

def c5Oracles : Oracles :=
  { routerResp := some c5Router,
    textEmbed := none, visualFromImage := none, visualFromText := none,
    thumbUrl := fun _ => none,
    genResp := fun _ => some "SELECT 1",
    execResp := fun i _ => if i = 0 then ExecOutcome.err "boom"
      else ExecOutcome.ok [[("n", some "5")]],
    judgeResp := fun _ => some { satisfactory := some true, summary := some "fine" } }

/-- Counterexample to claim C5: the first attempt fails with a database error;
the error text is carried in evaluation_feedback to the second synthesis (and
is still there at the end), but the first history record keeps feedback = none
- the execution error is never recorded as the attempt feedback in the
Attempt History, contrary to the claim and to spec Scenario C. -/
theorem c5_counterexample_error_feedback_not_backfilled :
    ((run_chat_agent c5Oracles "count files" [] none MAX_ATTEMPTS 5).map
        (fun r => (r.state.sql_query_history.map (fun a => a.feedback),
          r.state.evaluation_feedback, r.state.final_answer,
          r.state.sql_query_history.length)))
      = some ([none, none], some "SQL execution error: boom", some "fine", 2) := by decide

/-- Claim C5 amended: when cursor.execute raises, the except branch consumes
exactly one attempt, stores the error text (prefixed with SQL execution
error:) in evaluation_feedback for the next synthesis, leaves query_results
empty, sets no final answer, and returns normally - but the Attempt History
record is left untouched: the error text is not backfilled into its feedback
field. -/
theorem c5_exec_error_consumes_attempt (o : Oracles) (i : Nat)
    (s : ChatAgentState) (sql msg : String)
    (h1 : s.sql_query = some sql) (h2 : sql ≠ "")
    (h3 : sqlGuardOk sql = true) (h4 : o.execResp i sql = ExecOutcome.err msg) :
    (result_evaluation_node o i s).1.attempt_count = s.attempt_count + 1
    ∧ (result_evaluation_node o i s).1.evaluation_feedback
        = some ("SQL execution error: " ++ msg)
    ∧ (result_evaluation_node o i s).1.sql_query_history = s.sql_query_history
    ∧ (result_evaluation_node o i s).1.final_answer = s.final_answer
    ∧ (result_evaluation_node o i s).1.query_results = some [] := by
  have hne : ¬(truthyS s.sql_query = false) := by
    rw [h1]
    simp [truthyS_of_ne h2]
  unfold result_evaluation_node
  rw [if_neg hne]
  simp only [h1, Option.getD_some]
  rw [if_neg (by simp [h3]), h4]
  exact ⟨rfl, rfl, rfl, rfl, rfl⟩

def c5wOracles : Oracles :=
  { routerResp := none,
    textEmbed := none, visualFromImage := none, visualFromText := none,
    thumbUrl := fun _ => none,
    genResp := fun _ => none,
    execResp := fun _ _ => ExecOutcome.err "relation files does not exist",
    judgeResp := fun _ => none }

def c5wState : ChatAgentState :=
  { user_query := "q", max_attempts := 2, sql_query := some "SELECT x FROM files",
    sql_query_history := [{ sql := "SELECT x FROM files", attempt := 1 }] }

/-- Witness for the amended C5 theorem at a concrete failing execution. -/
theorem c5_exec_error_consumes_attempt_witness :
    (result_evaluation_node c5wOracles 0 c5wState).1.attempt_count = 1
    ∧ (result_evaluation_node c5wOracles 0 c5wState).1.evaluation_feedback
        = some "SQL execution error: relation files does not exist"
    ∧ (result_evaluation_node c5wOracles 0 c5wState).1.sql_query_history
        = [{ sql := "SELECT x FROM files", attempt := 1 }] := by
  have h := c5_exec_error_consumes_attempt c5wOracles 0 c5wState
    "SELECT x FROM files" "relation files does not exist" rfl (by decide) (by decide) rfl
  exact ⟨h.1, h.2.1, h.2.2.1⟩

def c6Router : RouterParsed :=
  { is_database_query := some false, direct_answer := some "" }

def c6Oracles : Oracles :=
  { routerResp := some c6Router,
    textEmbed := none, visualFromImage := none, visualFromText := none,
    thumbUrl := fun _ => none,
    genResp := fun _ => some "SELECT 1",
    execResp := fun _ _ => ExecOutcome.ok [],
    judgeResp := fun _ => none }

/-- Counterexample to claim C6: the router classifies the turn as non-database
(is_database_query = false) with an empty direct_answer; because the
conditional edge tests Python truthiness of final_answer, the empty string
does not trigger the early exit, and the run then crashes: query_intent is
still None in the graph state (the router's non-database branch never sets
it), so the first intent.get call of embedding_determination_node raises
AttributeError.  No Agent Outcome is produced at all (the run yields none),
so final_answer is never set to the direct answer and the exception escapes
the orchestrator - contrary to the claimed terminal behaviour. -/
theorem c6_counterexample_empty_direct_answer_falls_through :
    truthyS (query_router (some c6Router)
        (initState "hello there" [] none MAX_ATTEMPTS)).final_answer = false
    ∧ (query_router (some c6Router)
        (initState "hello there" [] none MAX_ATTEMPTS)).final_answer = some ""
    ∧ (query_router (some c6Router)
        (initState "hello there" [] none MAX_ATTEMPTS)).query_intent = none
    ∧ embedding_determination_node c6Oracles
        (query_router (some c6Router) (initState "hello there" [] none MAX_ATTEMPTS))
      = Except.error attributeErrorNoneGet
    ∧ run_chat_agent c6Oracles "hello there" [] none MAX_ATTEMPTS 5 = none :=
  ⟨by decide, by decide, by decide, by rfl, by rfl⟩

/-- Claim C6 amended: for a non-database classification whose direct answer
(after the missing-key default) is non-empty, the run terminates at the router
edge: final_answer is the direct answer verbatim, query_results is empty, the
Attempt History is empty, and the trace holds only the router call - the
Embedding Resolver and the Query Synthesizer are never invoked. -/
theorem c6_nondb_shortcircuit (o : Oracles) (query : String)
    (hist : List (String × String)) (img : Option String) (maxA fuel : Nat)
    (p : RouterParsed) (h1 : o.routerResp = some p)
    (h2 : p.is_database_query = some false)
    (h3 : p.direct_answer.getD defaultDirectAnswer ≠ "") :
    (run_chat_agent o query hist img maxA fuel).map
        (fun r => (r.outcome.final_answer, r.outcome.query_results,
          r.outcome.all_sql_queries, r.trace))
      = some (some (p.direct_answer.getD defaultDirectAnswer), some [], [],
          [Event.routerCall]) := by
  have hrt : query_router o.routerResp (initState query hist img maxA)
      = { initState query hist img maxA with
          final_answer := some (p.direct_answer.getD defaultDirectAnswer),
          query_results := some [] } := by
    rw [h1]
    simp only [query_router]
    rw [if_pos (by rw [h2]; rfl)]
  unfold run_chat_agent
  rw [hrt]
  rw [if_pos (truthyS_of_ne h3)]
  rfl

def c6wRouter : RouterParsed :=
  { is_database_query := some false,
    direct_answer := some "I can only help with the asset database." }

def c6wOracles : Oracles :=
  { routerResp := some c6wRouter,
    textEmbed := none, visualFromImage := none, visualFromText := none,
    thumbUrl := fun _ => none,
    genResp := fun _ => some "SELECT 1",
    execResp := fun _ _ => ExecOutcome.ok [],
    judgeResp := fun _ => none }

/-- Witness for the amended C6 theorem at a concrete non-database turn. -/
theorem c6_nondb_shortcircuit_witness :
    (run_chat_agent c6wOracles "what is a shader" [] none 2 3).map
        (fun r => (r.outcome.final_answer, r.outcome.query_results,
          r.outcome.all_sql_queries, r.trace))
      = some (some "I can only help with the asset database.", some [], [],
          [Event.routerCall]) :=
  c6_nondb_shortcircuit c6wOracles "what is a shader" [] none 2 3 c6wRouter
    rfl rfl (by decide)

def c8Router : RouterParsed :=
  { is_database_query := some true, enhanced_query := some "count blends", intent := some {} }

def c8Judge : JudgeParsed :=
  { satisfactory := some false, feedback := some "zero rows seems wrong" }

def c8Oracles : Oracles :=
  { routerResp := some c8Router,
    textEmbed := none, visualFromImage := none, visualFromText := none,
    thumbUrl := fun _ => none,
    genResp := fun _ => some "SELECT count(*) FROM files",
    execResp := fun _ _ => ExecOutcome.ok [[("count", some "0")]],
    judgeResp := fun _ => some c8Judge }

/-- Counterexample to claim C8: the executed result set is a single row with
the aggregate value 0, but the Language Model response marks it
unsatisfactory, and the code records exactly that verdict: the attempt is
marked satisfactory = false with the model feedback, and the run ends in the
hedge answer instead of a satisfactory one.  The zero-is-valid carve-out is
prompt text only, not enforced in code. -/
theorem c8_counterexample_zero_aggregate_marked_unsatisfactory :
    ((run_chat_agent c8Oracles "count blends" [] none 1 5).map
        (fun r => r.state.query_results))
      = some (some [[("count", some "0"), ("thumbnail_url", none)]])
    ∧ ((run_chat_agent c8Oracles "count blends" [] none 1 5).map
        (fun r => r.state.sql_query_history.map (fun a => (a.satisfactory, a.feedback))))
      = some [(some false, some "zero rows seems wrong")]
    ∧ ((run_chat_agent c8Oracles "count blends" [] none 1 5).map
        (fun r => r.state.final_answer))
      = some (some (hedgeFoundMsg 1)) :=
  ⟨by decide, by decide, by decide⟩

/-- Claim C8 amended: for a single-row zero-aggregate result set, the
satisfactory mark of the attempt follows the parsed model response verbatim:
if the model says satisfactory the history mark is untouched (the attempt is
answered), and if the model says unsatisfactory the attempt is marked
satisfactory = false - the carve-out exists only in the prompt, so the mark
depends solely on the model flag. -/
theorem c8_verdict_follows_model_flag (o : Oracles) (i : Nat)
    (s : ChatAgentState) (j : JudgeParsed) (sql : String)
    (h1 : s.sql_query = some sql) (h2 : sql ≠ "") (h3 : sqlGuardOk sql = true)
    (h4 : o.execResp i sql = ExecOutcome.ok [[("count", some "0")]])
    (h5 : o.judgeResp i = some j) (h6 : s.sql_query_history ≠ []) :
    lastSatisfactory (result_evaluation_node o i s).1
      = (if j.satisfactory.getD false = true then lastSatisfactory s
         else some false) := by
  have hne : ¬(truthyS s.sql_query = false) := by
    rw [h1]
    simp [truthyS_of_ne h2]
  unfold result_evaluation_node
  rw [if_neg hne]
  simp only [h1, Option.getD_some]
  rw [if_neg (by simp [h3]), h4]
  change lastSatisfactory (evalJudge o i s sql [[("count", some "0")]]).1 = _
  unfold evalJudge
  rw [h5]
  dsimp only
  cases hL : s.sql_query_history.getLast? with
  | none => exact absurd (List.getLast?_eq_none_iff.mp hL) h6
  | some a =>
    by_cases hsat : j.satisfactory.getD false = true
    · rw [if_pos hsat, if_pos hsat]
      simp [lastSatisfactory, backfillLast_getLast?, hL, backfillResults]
    · rw [if_neg hsat, if_neg hsat]
      split
      · split
        · simp [lastSatisfactory, backfillLast_getLast?, hL, backfillFeedback]
        · simp [lastSatisfactory, backfillLast_getLast?, hL, backfillFeedback]
      · simp [lastSatisfactory, backfillLast_getLast?, hL, backfillFeedback]

def c8wJudge : JudgeParsed :=
  { satisfactory := some false, feedback := some "bad" }

def c8wState : ChatAgentState :=
  { user_query := "q", max_attempts := 2,
    sql_query := some "SELECT count(*) FROM files",
    sql_query_history := [{ sql := "SELECT count(*) FROM files", attempt := 1 }] }

def c8wOracles : Oracles :=
  { routerResp := none,
    textEmbed := none, visualFromImage := none, visualFromText := none,
    thumbUrl := fun _ => none,
    genResp := fun _ => none,
    execResp := fun _ _ => ExecOutcome.ok [[("count", some "0")]],
    judgeResp := fun _ => some c8wJudge }

/-- Witness for the amended C8 theorem: a zero-aggregate row judged
unsatisfactory by the model is marked satisfactory = false. -/
theorem c8_verdict_follows_model_flag_witness :
    lastSatisfactory (result_evaluation_node c8wOracles 0 c8wState).1 = some false := by
  have h := c8_verdict_follows_model_flag c8wOracles 0 c8wState c8wJudge
    "SELECT count(*) FROM files" rfl (by decide) (by decide) rfl rfl (by decide)
  simpa using h

def c4Router : RouterParsed :=
  { is_database_query := some true, enhanced_query := some "q", intent := some {} }

def c4JudgeReject : JudgeParsed :=
  { satisfactory := some false, feedback := some "bad" }

def c4JudgeEmptySummary : JudgeParsed :=
  { satisfactory := some true, summary := some "" }

def c4JudgeDone : JudgeParsed :=
  { satisfactory := some true, summary := some "done" }

def c4Oracles : Oracles :=
  { routerResp := some c4Router,
    textEmbed := none, visualFromImage := none, visualFromText := none,
    thumbUrl := fun _ => none,
    genResp := fun _ => some "SELECT 1",
    execResp := fun _ _ => ExecOutcome.ok [[("n", some "5")]],
    judgeResp := fun i =>
      if i = 0 then some c4JudgeReject
      else if i = 1 then some c4JudgeEmptySummary
      else some c4JudgeDone }

/-- Counterexample to claim C4: with max_attempts = 2, a first rejected
attempt followed by a satisfactory verdict whose summary is the empty string
makes should_retry_sql see a falsy final_answer together with the stale
feedback and loop back WITHOUT incrementing the counter; the third generation
then appends a duplicate ordinal: the history ends with length 3 > 2 and
attempt fields 1, 2, 2 - neither bounded by the budget nor strictly
increasing. -/
theorem c4_counterexample_history_exceeds_budget :
    ((run_chat_agent c4Oracles "q" [] none MAX_ATTEMPTS 6).map
        (fun r => (r.state.sql_query_history.map (fun a => a.attempt),
          r.state.max_attempts, r.state.final_answer)))
      = some ([1, 2, 2], 2, some "done") := by decide

/-- Claim C4 amended: provided max_attempts is at least 1 and every
satisfactory judge verdict carries a summary that survives as a non-empty
final answer (goodJudge), every terminating run has Attempt History length at
most max_attempts and its attempt ordinals are exactly 1, 2, ..., length.
Without the goodJudge proviso the truthiness-based retry guard re-enters
generation without consuming an attempt and both parts fail. -/
theorem c4_history_bounded (o : Oracles) (query : String)
    (hist : List (String × String)) (img : Option String) (maxA fuel : Nat)
    (r : RunResult) (hmax : 1 ≤ maxA) (hg : ∀ n, goodJudge (o.judgeResp n))
    (hr : run_chat_agent o query hist img maxA fuel = some r) :
    r.state.sql_query_history.length ≤ maxA
    ∧ r.state.sql_query_history.map (fun a => a.attempt)
        = ordinalSeq r.state.sql_query_history.length := by
  unfold run_chat_agent at hr
  by_cases h1 : truthyS
      (query_router o.routerResp (initState query hist img maxA)).final_answer = true
  · rw [if_pos h1] at hr
    have hres := Option.some.inj hr
    have hhist : r.state.sql_query_history = [] := by
      rw [← hres]
      show (query_router o.routerResp (initState query hist img maxA)).sql_query_history = []
      rw [(query_router_facts o.routerResp (initState query hist img maxA)).2.2]
      rfl
    rw [hhist]
    exact ⟨Nat.zero_le _, rfl⟩
  · rw [if_neg h1] at hr
    cases hemb : embedding_determination_node o
        (query_router o.routerResp (initState query hist img maxA)) with
    | error e =>
      rw [hemb] at hr
      simp at hr
    | ok p =>
      rw [hemb] at hr
      dsimp only at hr
      cases hloop : loopSql o fuel 0 p.1 ([Event.routerCall] ++ p.2) with
      | none =>
        rw [hloop] at hr
        exact absurd hr (by simp)
      | some res =>
        rw [hloop] at hr
        have hres := Option.some.inj hr
        have hc : p.1.attempt_count = 0 := by
          rw [(embedding_node_facts o
              (query_router o.routerResp (initState query hist img maxA)) p hemb).1,
            (query_router_facts o.routerResp (initState query hist img maxA)).1]
          rfl
        have hh : p.1.sql_query_history = [] := by
          rw [(embedding_node_facts o
              (query_router o.routerResp (initState query hist img maxA)) p hemb).2.2.1,
            (query_router_facts o.routerResp (initState query hist img maxA)).2.2]
          rfl
        have hm : p.1.sql_query_history.map (fun a => a.attempt) = ordinalSeq 0 := by
          rw [hh]
          rfl
        have hmaxeq : p.1.max_attempts = maxA := by
          rw [(embedding_node_facts o
              (query_router o.routerResp (initState query hist img maxA)) p hemb).2.1,
            (query_router_facts o.routerResp (initState query hist img maxA)).2.1]
          rfl
        have hlt : 0 < p.1.max_attempts := by
          rw [hmaxeq]
          exact hmax
        have hinv := loopSql_invariant o hg fuel 0 _ _ res hloop hc hm hlt
        have hstate : r.state = res.1 := by
          rw [← hres]
        rw [hstate]
        rw [hmaxeq] at hinv
        exact ⟨hinv.2.1, hinv.1⟩

def c4wRouter : RouterParsed :=
  { is_database_query := some true, enhanced_query := some "q", intent := some {} }

def c4wJudge : JudgeParsed := { satisfactory := some true, summary := some "two rows" }

def c4wOracles : Oracles :=
  { routerResp := some c4wRouter,
    textEmbed := none, visualFromImage := none, visualFromText := none,
    thumbUrl := fun _ => none,
    genResp := fun _ => some "SELECT 1",
    execResp := fun _ _ => ExecOutcome.ok [],
    judgeResp := fun _ => some c4wJudge }

/-- Witness for the amended C4 theorem on a concrete well-behaved run. -/
theorem c4_history_bounded_witness :
    ((run_chat_agent c4wOracles "q" [] none 2 3).map
        (fun r => (decide (r.state.sql_query_history.length ≤ 2),
          decide (r.state.sql_query_history.map (fun a => a.attempt)
            = ordinalSeq r.state.sql_query_history.length))))
      = some (true, true) := by
  cases hE : run_chat_agent c4wOracles "q" [] none 2 3 with
  | none => exact absurd hE (by decide)
  | some r =>
    have hg : ∀ n, goodJudge (c4wOracles.judgeResp n) := by
      intro n j hj hsat
      have hjj := Option.some.inj hj
      right
      rw [← hjj]
      decide
    have h := c4_history_bounded c4wOracles "q" [] none 2 3 r (by decide) hg hE
    simp [decide_eq_true h.1, decide_eq_true h.2]
